import Mathlib

/-!
Shallow embedding of the workout-session analysis pipeline of
src/batch_analyzer.py.

Modelling conventions:
* Python floats are modelled as rationals; every arithmetic operation and
  comparison used by the analyzer is exact at the inputs considered here.
* The single irrational primitive (numpy sqrt, used only for the nose
  displacement inside calculate_pose_stability) is abstracted as an explicit
  function parameter of the definitions that need it.
* A Python value that may be None (a frame with no detected pose, the result
  of a function that can fall through without returning) is an Option.
* Python dict landmark frames are a structure of thirteen optional entries;
  an absent dictionary key is the none field value.
-/

namespace BatchAnalyzer

/-- One pose landmark as extracted by detect_pose_in_frame: normalized x and
y coordinates plus a visibility score. -/
structure LM where
  x : ℚ
  y : ℚ
  vis : ℚ
deriving DecidableEq, Repr

/-- The dictionary of named landmarks produced by detect_pose_in_frame.
Each of the thirteen keys may be absent from the dictionary. -/
structure Landmarks where
  nose : Option LM := none
  left_shoulder : Option LM := none
  right_shoulder : Option LM := none
  left_elbow : Option LM := none
  right_elbow : Option LM := none
  left_wrist : Option LM := none
  right_wrist : Option LM := none
  left_hip : Option LM := none
  right_hip : Option LM := none
  left_knee : Option LM := none
  right_knee : Option LM := none
  left_ankle : Option LM := none
  right_ankle : Option LM := none
deriving DecidableEq, Repr

/-- The exercise labels named by the specification.  The batch classifier
itself only ever produces squat, pushup, plank, standing or unknown;
general_exercise is the fallback label of the separate detailed analyzer. -/
inductive Label where
  | squat
  | pushup
  | plank
  | standing
  | general_exercise
  | unknown
deriving DecidableEq, Repr

/-- classify_exercise_from_pose (src/batch_analyzer.py lines 72-104).
The input none stands for a frame with no detected pose (Python None, which
is falsy, like an empty dictionary).  The result is an Option Label because
the Python function has a path with no return statement: when the pushup
branch is entered (torso near horizontal and a left wrist present) but the
wrist-to-shoulder test fails, the function falls off the end and returns
Python None. -/
def classify_exercise_from_pose (frame : Option Landmarks) : Option Label :=
  match frame with
  | none => some .unknown
  | some lm =>
    match lm.left_shoulder, lm.right_shoulder, lm.left_hip, lm.right_hip,
          lm.left_knee, lm.right_knee with
    | some ls, some rs, some lh, some rh, some lk, some rk =>
      let shoulder_y := (ls.y + rs.y) / 2
      let hip_y := (lh.y + rh.y) / 2
      let knee_y := (lk.y + rk.y) / 2
      if hip_y > shoulder_y + 15/100 ∧ knee_y > hip_y - 1/10 then
        some .squat
      else if |shoulder_y - hip_y| < 2/10 ∧ lm.left_wrist.isSome then
        match lm.left_wrist with
        | some lw => if |lw.y - shoulder_y| < 15/100 then some .pushup else none
        | none => none
      else if |shoulder_y - hip_y| < 15/100 then
        some .plank
      else
        some .standing
    | _, _, _, _, _, _ => some .unknown

/-- A landmark frame that drives classify_exercise_from_pose into the pushup
branch (torso height difference 0.1 < 0.2, left wrist present) while failing
the inner wrist test (|0.9 - 0.5| = 0.4, not < 0.15), so that the Python
function returns None. -/
def c1_frame : Landmarks :=
  { left_shoulder := some ⟨3/10, 1/2, 1⟩
    right_shoulder := some ⟨7/10, 1/2, 1⟩
    left_wrist := some ⟨1/2, 9/10, 1⟩
    left_hip := some ⟨3/10, 6/10, 1⟩
    right_hip := some ⟨7/10, 6/10, 1⟩
    left_knee := some ⟨3/10, 9/10, 1⟩
    right_knee := some ⟨7/10, 9/10, 1⟩ }

/-- Claim C1: the exercise classifier is claimed to always return a member of
the closed label set.  In fact the code returns Python None (not a string at
all, contradicting the declared return type str of the function) on c1_frame:
the shoulder-to-hip test selects the pushup branch, the inner wrist test
fails, and no branch returns. -/
theorem classify_fallthrough_not_a_label :
    classify_exercise_from_pose (some c1_frame) = none := by
  norm_num [classify_exercise_from_pose, c1_frame, abs_lt]

/-- The quantities read by the squat branch of count_reps_in_sequence:
mean hip height and mean knee height.  none corresponds to the KeyError
branch (some required landmark absent), which makes the loop skip the
frame. -/
def squat_ys (p : Landmarks) : Option (ℚ × ℚ) :=
  match p.left_hip, p.right_hip, p.left_knee, p.right_knee with
  | some lh, some rh, some lk, some rk =>
    some ((lh.y + rh.y) / 2, (lk.y + rk.y) / 2)
  | _, _, _, _ => none

/-- The quantities read by the pushup branch of count_reps_in_sequence:
left shoulder height and left wrist height; none is the KeyError branch. -/
def pushup_ys (p : Landmarks) : Option (ℚ × ℚ) :=
  match p.left_shoulder, p.left_wrist with
  | some ls, some lw => some (ls.y, lw.y)
  | _, _ => none

/-- One iteration of the loop of count_reps_in_sequence
(src/batch_analyzer.py lines 114-148).  The state is the pair
(rep_count, in_rep).  Frames that are None, or that miss a required
landmark, leave the state unchanged; labels other than squat and pushup
have no counting branch. -/
def rep_step (exercise_type : Label) (st : ℤ × Bool) (pose : Option Landmarks) :
    ℤ × Bool :=
  match pose with
  | none => st
  | some p =>
    match exercise_type with
    | .squat =>
      match squat_ys p with
      | some (hip_y, knee_y) =>
        if hip_y > knee_y - 5/100 ∧ st.2 = false then (st.1, true)
        else if hip_y < knee_y - 15/100 ∧ st.2 = true then (st.1 + 1, false)
        else st
      | none => st
    | .pushup =>
      match pushup_ys p with
      | some (shoulder_y, wrist_y) =>
        if |shoulder_y - wrist_y| < 1/10 ∧ st.2 = false then (st.1, true)
        else if |shoulder_y - wrist_y| > 2/10 ∧ st.2 = true then (st.1 + 1, false)
        else st
      | none => st
    | _ => st

/-- count_reps_in_sequence (src/batch_analyzer.py lines 106-150). -/
def count_reps_in_sequence (poses : List (Option Landmarks))
    (exercise_type : Label) : ℤ :=
  if exercise_type = .unknown ∨ poses = [] then 0
  else (poses.foldl (rep_step exercise_type) (0, false)).1

/-- Whether a frame is non-missing and carries every landmark that the
rep-counting branch of its exercise reads; exercises without a counting
branch read no landmark, so any non-missing frame qualifies. -/
def rep_landmarks_present (exercise_type : Label)
    (pose : Option Landmarks) : Bool :=
  match pose with
  | none => false
  | some p =>
    match exercise_type with
    | .squat => (squat_ys p).isSome
    | .pushup => (pushup_ys p).isSome
    | _ => true

theorem rep_step_cases (ty : Label) (st : ℤ × Bool) (p : Option Landmarks) :
    rep_step ty st p = st ∨
    (rep_landmarks_present ty p = true ∧ st.2 = false ∧
      rep_step ty st p = (st.1, true)) ∨
    (rep_landmarks_present ty p = true ∧ st.2 = true ∧
      rep_step ty st p = (st.1 + 1, false)) := by
  rcases p with _ | pl
  · exact Or.inl rfl
  · cases ty
    case squat =>
      rcases h : squat_ys pl with _ | ⟨hy, ky⟩
      · exact Or.inl (by simp only [rep_step, h])
      · have hp : rep_landmarks_present .squat (some pl) = true := by
          simp only [rep_landmarks_present, h, Option.isSome_some]
        simp only [rep_step, h]
        split_ifs with h1 h2
        · exact Or.inr (Or.inl ⟨hp, h1.2, rfl⟩)
        · exact Or.inr (Or.inr ⟨hp, h2.2, rfl⟩)
        · exact Or.inl rfl
    case pushup =>
      rcases h : pushup_ys pl with _ | ⟨sy, wy⟩
      · exact Or.inl (by simp only [rep_step, h])
      · have hp : rep_landmarks_present .pushup (some pl) = true := by
          simp only [rep_landmarks_present, h, Option.isSome_some]
        simp only [rep_step, h]
        split_ifs with h1 h2
        · exact Or.inr (Or.inl ⟨hp, h1.2, rfl⟩)
        · exact Or.inr (Or.inr ⟨hp, h2.2, rfl⟩)
        · exact Or.inl rfl
    all_goals exact Or.inl rfl

theorem rep_step_fst_le (ty : Label) (st : ℤ × Bool) (p : Option Landmarks) :
    st.1 ≤ (rep_step ty st p).1 := by
  rcases rep_step_cases ty st p with h | ⟨_, _, h⟩ | ⟨_, _, h⟩
  · exact le_of_eq (by rw [h])
  · exact le_of_eq (by rw [h])
  · rw [h]
    show st.1 ≤ st.1 + 1
    omega

theorem rep_step_fst_of_false (ty : Label) (st : ℤ × Bool)
    (p : Option Landmarks) (hb : st.2 = false) :
    (rep_step ty st p).1 = st.1 := by
  rcases rep_step_cases ty st p with h | ⟨_, _, h⟩ | ⟨_, hb2, h⟩
  · rw [h]
  · rw [h]
  · rw [hb] at hb2; cases hb2

theorem foldl_rep_fst_mono (ty : Label) (l : List (Option Landmarks))
    (st : ℤ × Bool) :
    st.1 ≤ (l.foldl (rep_step ty) st).1 := by
  induction l generalizing st with
  | nil => exact le_refl _
  | cons p l ih =>
    calc st.1 ≤ (rep_step ty st p).1 := rep_step_fst_le ty st p
      _ ≤ _ := ih (rep_step ty st p)

theorem foldl_rep_all_none (ty : Label) (l : List (Option Landmarks))
    (st : ℤ × Bool) (h : ∀ p ∈ l, p = (none : Option Landmarks)) :
    l.foldl (rep_step ty) st = st := by
  induction l generalizing st with
  | nil => rfl
  | cons p l ih =>
    have hp : p = none := h p (List.mem_cons_self p l)
    subst hp
    exact ih st fun q hq => h q (List.mem_cons_of_mem _ hq)

theorem foldl_rep_le_one_valid (ty : Label) (l : List (Option Landmarks))
    (c : ℤ) (h : (l.filter fun p => p.isSome).length ≤ 1) :
    (l.foldl (rep_step ty) (c, false)).1 = c := by
  induction l generalizing c with
  | nil => rfl
  | cons p l ih =>
    rcases p with _ | pl
    · have hf : ((none :: l).filter fun p => p.isSome) =
          l.filter fun p => p.isSome := by simp
      rw [hf] at h
      exact ih c h
    · have hf : (((some pl) :: l).filter fun p => p.isSome).length =
          (l.filter fun p => p.isSome).length + 1 := by simp
      rw [hf] at h
      have hz : (l.filter fun p => p.isSome).length = 0 := by omega
      have hnone : ∀ q ∈ l, q = (none : Option Landmarks) := by
        intro q hq
        rcases q with _ | ql
        · rfl
        · exfalso
          have : some ql ∈ l.filter fun p => p.isSome :=
            List.mem_filter.2 ⟨hq, by simp⟩
          rw [List.length_eq_zero.1 hz] at this
          exact absurd this (List.not_mem_nil _)
      have hstep := rep_step_fst_of_false ty (c, false) (some pl) rfl
      calc ((some pl :: l).foldl (rep_step ty) (c, false)).1
          = (l.foldl (rep_step ty) (rep_step ty (c, false) (some pl))).1 := rfl
        _ = (rep_step ty (c, false) (some pl)).1 := by
            rw [foldl_rep_all_none ty l _ hnone]
        _ = c := hstep

/-- Claim C6: the rep counter returns a non-negative integer, and any
sequence with fewer than 2 valid (non-missing) frames yields exactly 0. -/
theorem rep_count_nonneg_and_short_zero (poses : List (Option Landmarks))
    (ty : Label) :
    0 ≤ count_reps_in_sequence poses ty ∧
    ((poses.filter fun p => p.isSome).length < 2 →
      count_reps_in_sequence poses ty = 0) := by
  constructor
  · unfold count_reps_in_sequence
    split_ifs with h
    · exact le_refl 0
    · exact foldl_rep_fst_mono ty poses (0, false)
  · intro hvalid
    unfold count_reps_in_sequence
    split_ifs with h
    · rfl
    · exact foldl_rep_le_one_valid ty poses 0 (by omega)

/-- A frame whose hips sit well above the knees (standing position of the
squat cycle): hip height 0.5, knee height 0.7, so hip_y < knee_y - 0.15. -/
def standing_frame : Landmarks :=
  { left_hip := some ⟨4/10, 1/2, 1⟩
    right_hip := some ⟨6/10, 1/2, 1⟩
    left_knee := some ⟨4/10, 7/10, 1⟩
    right_knee := some ⟨6/10, 7/10, 1⟩ }

/-- A frame in the deep squat position: hip height 0.7 equals knee height,
so hip_y > knee_y - 0.05. -/
def deep_frame : Landmarks :=
  { left_hip := some ⟨4/10, 7/10, 1⟩
    right_hip := some ⟨6/10, 7/10, 1⟩
    left_knee := some ⟨4/10, 7/10, 1⟩
    right_knee := some ⟨6/10, 7/10, 1⟩ }

/-- The 15-frame squat cycle of the scenario: 5 standing, 5 deep,
5 standing. -/
def c7_poses : List (Option Landmarks) :=
  List.replicate 5 (some standing_frame) ++ List.replicate 5 (some deep_frame)
    ++ List.replicate 5 (some standing_frame)

/-- Witness for claim C6 at a concrete two-frame input with one valid
frame. -/
theorem rep_count_nonneg_and_short_zero_witness :
    0 ≤ count_reps_in_sequence [some standing_frame, none] .squat ∧
    count_reps_in_sequence [some standing_frame, none] .squat = 0 :=
  ⟨(rep_count_nonneg_and_short_zero [some standing_frame, none] .squat).1,
    (rep_count_nonneg_and_short_zero [some standing_frame, none] .squat).2
      (by simp [List.filter])⟩

/-- Claim C7: the 15-frame standing-deep-standing squat sequence yields
exactly one counted rep. -/
theorem squat_cycle_counts_one_rep :
    count_reps_in_sequence c7_poses .squat = 1 := by
  have hrw : c7_poses =
      [some standing_frame, some standing_frame, some standing_frame,
       some standing_frame, some standing_frame, some deep_frame,
       some deep_frame, some deep_frame, some deep_frame, some deep_frame,
       some standing_frame, some standing_frame, some standing_frame,
       some standing_frame, some standing_frame] := rfl
  rw [hrw]
  unfold count_reps_in_sequence
  rw [if_neg (by simp)]
  norm_num [rep_step, squat_ys, standing_frame, deep_frame, List.foldl]

theorem rep_step_bound (ty : Label) (st : ℤ × Bool) (p : Option Landmarks) :
    2 * (rep_step ty st p).1 + (if (rep_step ty st p).2 then (1 : ℤ) else 0) ≤
      2 * st.1 + (if st.2 then (1 : ℤ) else 0) +
        (if rep_landmarks_present ty p then 1 else 0) := by
  rcases rep_step_cases ty st p with h | ⟨hp, hb, h⟩ | ⟨hp, hb, h⟩
  · rw [h]
    split_ifs <;> omega
  · rw [h]
    simp only [hp, hb]
    norm_num
  · rw [h]
    simp only [hp, hb]
    norm_num
    omega

theorem foldl_rep_bound (ty : Label) (l : List (Option Landmarks))
    (st : ℤ × Bool) :
    2 * (l.foldl (rep_step ty) st).1 +
        (if (l.foldl (rep_step ty) st).2 then (1 : ℤ) else 0) ≤
      2 * st.1 + (if st.2 then (1 : ℤ) else 0) +
        (l.countP (rep_landmarks_present ty) : ℤ) := by
  induction l generalizing st with
  | nil => simp
  | cons p l ih =>
    have h1 := ih (rep_step ty st p)
    have h2 := rep_step_bound ty st p
    have h3 : ((p :: l).countP (rep_landmarks_present ty) : ℤ) =
        (l.countP (rep_landmarks_present ty) : ℤ) +
          (if rep_landmarks_present ty p then 1 else 0) := by
      rw [List.countP_cons]
      split_ifs with hc <;> simp [hc]
    calc 2 * ((p :: l).foldl (rep_step ty) st).1 +
          (if ((p :: l).foldl (rep_step ty) st).2 then (1 : ℤ) else 0)
        = 2 * (l.foldl (rep_step ty) (rep_step ty st p)).1 +
          (if (l.foldl (rep_step ty) (rep_step ty st p)).2 then (1 : ℤ) else 0) := rfl
      _ ≤ 2 * (rep_step ty st p).1 +
          (if (rep_step ty st p).2 then (1 : ℤ) else 0) +
          (l.countP (rep_landmarks_present ty) : ℤ) := h1
      _ ≤ 2 * st.1 + (if st.2 then (1 : ℤ) else 0) +
          (if rep_landmarks_present ty p then 1 else 0) +
          (l.countP (rep_landmarks_present ty) : ℤ) := by omega
      _ = 2 * st.1 + (if st.2 then (1 : ℤ) else 0) +
          ((p :: l).countP (rep_landmarks_present ty) : ℤ) := by rw [h3]; ring

/-- Claim C10: each counted rep consumes two distinct frames carrying all
required landmarks (one for the rest-to-active transition, one for the
active-to-rest transition), so the rep count never exceeds half the number
of such frames. -/
theorem rep_count_le_half_valid (poses : List (Option Landmarks))
    (ty : Label) :
    count_reps_in_sequence poses ty ≤
      ((poses.countP (rep_landmarks_present ty) / 2 : ℕ) : ℤ) := by
  unfold count_reps_in_sequence
  split_ifs with h
  · exact Int.ofNat_nonneg _
  · have hb := foldl_rep_bound ty poses (0, false)
    simp only [Prod.snd, if_neg Bool.false_ne_true] at hb
    have h2 : 2 * (poses.foldl (rep_step ty) (0, false)).1 ≤
        (poses.countP (rep_landmarks_present ty) : ℤ) := by
      split_ifs at hb <;> omega
    omega

/-- The contribution of one consecutive frame pair to
calculate_form_consistency (src/batch_analyzer.py lines 196-206): requires
both frames present with both shoulders; none is the skipped case (a missing
frame or a KeyError). -/
def pair_consistency (prev curr : Option Landmarks) : Option ℚ :=
  match prev, curr with
  | some p, some c =>
    match c.left_shoulder, c.right_shoulder, p.left_shoulder,
          p.right_shoulder with
    | some cls, some crs, some pls, some prs =>
      let curr_shoulder_width := |cls.x - crs.x|
      let prev_shoulder_width := |pls.x - prs.x|
      some (max 0 (1 - |curr_shoulder_width - prev_shoulder_width|))
    | _, _, _, _ => none
  | _, _ => none

/-- calculate_form_consistency (src/batch_analyzer.py lines 188-208).
The mean over an empty collection branch of the source returns 0.0. -/
def calculate_form_consistency (poses : List (Option Landmarks))
    (exercise_type : Label) : ℚ :=
  if poses = [] ∨ exercise_type = .unknown then 0
  else
    let consistencies :=
      (poses.zip poses.tail).filterMap fun pr => pair_consistency pr.1 pr.2
    if consistencies = [] then 0
    else consistencies.sum / (consistencies.length : ℚ)

/-- The nose displacement of one consecutive frame pair in
calculate_pose_stability (src/batch_analyzer.py lines 217-227).  The
Euclidean norm uses numpy sqrt, which is irrational; it is abstracted as
the function parameter sq.  none is the skipped case (missing frame or
missing nose). -/
def nose_movement (sq : ℚ → ℚ) (prev curr : Option Landmarks) : Option ℚ :=
  match prev, curr with
  | some p, some c =>
    match c.nose, p.nose with
    | some cn, some pn => some (sq ((cn.x - pn.x) ^ 2 + (cn.y - pn.y) ^ 2))
    | _, _ => none
  | _, _ => none

/-- calculate_pose_stability (src/batch_analyzer.py lines 210-230). -/
def calculate_pose_stability (sq : ℚ → ℚ)
    (poses : List (Option Landmarks)) : ℚ :=
  if poses.length < 2 then 1
  else
    let movements :=
      (poses.zip poses.tail).filterMap fun pr => nose_movement sq pr.1 pr.2
    let avg_movement :=
      if movements = [] then 0 else movements.sum / (movements.length : ℚ)
    max 0 (1 - avg_movement * 10)

/-- The dictionary returned by detect_fatigue_indicators.  The insufficient
data branch of the source omits the two consistency keys, hence the Option
pair (early consistency, late consistency). -/
structure FatigueResult where
  fatigue_score : ℚ
  indicators : List String
  consistencies : Option (ℚ × ℚ)
deriving DecidableEq, Repr

/-- detect_fatigue_indicators (src/batch_analyzer.py lines 152-186).
The guard counts all frames of the segment, missing ones included.  Note
the late window: the Python slice poses[-len(poses)//3:] floors the negated
division, so it keeps the last ceiling(n/3) frames, computed here as
(n + 2) / 3 in natural division. -/
def detect_fatigue_indicators (sq : ℚ → ℚ)
    (poses : List (Option Landmarks)) (exercise_type : Label) :
    FatigueResult :=
  if poses.length < 10 then
    { fatigue_score := 0, indicators := [], consistencies := none }
  else
    let early_poses := poses.take (poses.length / 3)
    let late_poses := poses.drop (poses.length - (poses.length + 2) / 3)
    let early_consistency := calculate_form_consistency early_poses exercise_type
    let late_consistency := calculate_form_consistency late_poses exercise_type
    let degradation := late_consistency < early_consistency - 15/100
    let instability :=
      if 5 < late_poses.length then
        calculate_pose_stability sq late_poses <
          calculate_pose_stability sq early_poses - 1/10
      else False
    { fatigue_score :=
        min ((if degradation then (3 : ℚ)/10 else 0) +
             (if instability then (2 : ℚ)/10 else 0)) 1,
      indicators :=
        (if degradation then ["Form degradation detected"] else []) ++
        (if instability then ["Increased movement instability"] else []),
      consistencies := some (early_consistency, late_consistency) }

/-- Claim C8: the fatigue score always lies in the closed interval [0, 1],
for every square root function, pose list and label. -/
theorem fatigue_score_bounded (sq : ℚ → ℚ)
    (poses : List (Option Landmarks)) (ty : Label) :
    0 ≤ (detect_fatigue_indicators sq poses ty).fatigue_score ∧
      (detect_fatigue_indicators sq poses ty).fatigue_score ≤ 1 := by
  simp only [detect_fatigue_indicators]
  split_ifs <;> norm_num [min_def]

/-- Claim C3 (amended): the insufficient-data guard of the fatigue
estimator counts all frames of the sequence, so any sequence of fewer
than 10 total frames gets score 0 and no indicators. -/
theorem fatigue_short_sequence_zero (sq : ℚ → ℚ)
    (poses : List (Option Landmarks)) (ty : Label)
    (h : poses.length < 10) :
    detect_fatigue_indicators sq poses ty =
      { fatigue_score := 0, indicators := [], consistencies := none } := by
  simp only [detect_fatigue_indicators]
  rw [if_pos h]

/-- Witness for claim C3 at a concrete three-frame sequence. -/
theorem fatigue_short_sequence_zero_witness :
    detect_fatigue_indicators (fun q => q) [none, none, none] .squat =
      { fatigue_score := 0, indicators := [], consistencies := none } :=
  fatigue_short_sequence_zero (fun q => q) [none, none, none] .squat
    (by decide)

/-- A frame carrying only the two shoulders, with constant width 0.4. -/
def shoulder_frame : Landmarks :=
  { left_shoulder := some ⟨3/10, 1/2, 1⟩
    right_shoulder := some ⟨7/10, 1/2, 1⟩ }

/-- A 10-frame sequence with only 3 valid frames: the first three are valid
shoulder frames, the remaining seven are missing. -/
def c3_poses : List (Option Landmarks) :=
  [some shoulder_frame, some shoulder_frame, some shoulder_frame,
   none, none, none, none, none, none, none]

/-- Counterexample to claim C3 as stated: c3_poses has only 3 valid
(non-missing) frames, yet the fatigue estimator does not return the zero
result; it reaches the analysis (the guard counts all 10 frames), sees
perfect early consistency and zero late consistency, and reports score 0.3
with a form degradation indicator. -/
theorem fatigue_counts_missing_frames_ce :
    (c3_poses.filter fun p => p.isSome).length = 3 ∧
    (detect_fatigue_indicators (fun q => q) c3_poses .squat).fatigue_score
      = 3/10 ∧
    (detect_fatigue_indicators (fun q => q) c3_poses .squat).indicators
      = ["Form degradation detected"] := by
  refine ⟨by decide, ?_, ?_⟩ <;>
    · simp only [detect_fatigue_indicators, calculate_form_consistency,
        pair_consistency, c3_poses, shoulder_frame, List.filterMap]
      norm_num [min_def]
      simp
      norm_num

/-- Claim C9: the pose stability function defaults to 1 (maximum
stability) on short sequences and on sequences with no valid consecutive
nose pair, whereas the form consistency function defaults to 0 when it has
no valid consecutive shoulder pair. -/
theorem stability_defaults_contrast (sq : ℚ → ℚ)
    (poses : List (Option Landmarks)) (ty : Label) :
    (poses.length < 2 → calculate_pose_stability sq poses = 1) ∧
    ((∀ pr ∈ poses.zip poses.tail, nose_movement sq pr.1 pr.2 = none) →
      calculate_pose_stability sq poses = 1) ∧
    ((∀ pr ∈ poses.zip poses.tail, pair_consistency pr.1 pr.2 = none) →
      calculate_form_consistency poses ty = 0) := by
  refine ⟨fun h => ?_, fun h => ?_, fun h => ?_⟩
  · simp only [calculate_pose_stability]
    rw [if_pos h]
  · simp only [calculate_pose_stability]
    split_ifs with hlen hmv
    · rfl
    · norm_num [max_def]
    · exact absurd (List.filterMap_eq_nil_iff.2 h) hmv
  · simp only [calculate_form_consistency]
    split_ifs with hz hmv
    · rfl
    · rfl
    · exact absurd (List.filterMap_eq_nil_iff.2 h) hmv

/-- Witness for claim C9 at concrete all-missing sequences of lengths 1
and 3. -/
theorem stability_defaults_contrast_witness :
    calculate_pose_stability (fun q => q) [none] = 1 ∧
    calculate_pose_stability (fun q => q) [none, none, none] = 1 ∧
    calculate_form_consistency [none, none, none] .squat = 0 :=
  ⟨(stability_defaults_contrast (fun q => q) [none] .squat).1 (by decide),
   (stability_defaults_contrast (fun q => q) [none, none, none] .squat).2.1
     (by decide),
   (stability_defaults_contrast (fun q => q) [none, none, none] .squat).2.2
     (by decide)⟩

/-- An exercise segment as built by segment_workout_into_exercises. -/
structure Segment where
  exercise : Label
  start_time : ℚ
  end_time : ℚ
  duration : ℚ
  poses : List (Option Landmarks)
  frame_count : ℕ
deriving DecidableEq, Repr

/-- The loop state of segment_workout_into_exercises: segments built so
far, the current label (none before the first frame and after a frame on
which the classifier itself returned None), the index where the current
run began, and the accumulated frames of the run. -/
structure SegState where
  segments : List Segment
  current : Option Label
  seg_start : ℕ
  seg_poses : List (Option Landmarks)
deriving Repr

/-- The save-previous-segment step at a label boundary reached at index i
(src/batch_analyzer.py lines 243-252): the accumulator becomes a segment
only when the current label is truthy (not None) and more than 5 frames
were accumulated.  The label is saved even when it is unknown.
Out-of-range timestamp indices, impossible when the timestamp list is as
long as the pose list, default to 0. -/
def seg_close (ts : List ℚ) (st : SegState) (i : ℕ) : List Segment :=
  match st.current with
  | some lbl =>
    if 5 < st.seg_poses.length then
      st.segments ++
        [{ exercise := lbl,
           start_time := ts.getD st.seg_start 0,
           end_time :=
             if 0 < i then ts.getD (i - 1) 0 else ts.getD st.seg_start 0,
           duration :=
             if 0 < i then ts.getD (i - 1) 0 - ts.getD st.seg_start 0 else 0,
           poses := st.seg_poses,
           frame_count := st.seg_poses.length }]
    else st.segments
  | none => st.segments

/-- One iteration of the enumerated loop of segment_workout_into_exercises
(src/batch_analyzer.py lines 239-259). -/
def seg_step (ts : List ℚ) (st : SegState) (ip : ℕ × Option Landmarks) :
    SegState :=
  let exercise := classify_exercise_from_pose ip.2
  if exercise ≠ st.current then
    { segments := seg_close ts st ip.1,
      current := exercise,
      seg_start := ip.1,
      seg_poses := [ip.2] }
  else
    { st with seg_poses := st.seg_poses ++ [ip.2] }

/-- The final-segment flush after the loop (src/batch_analyzer.py lines
262-270); the end timestamp is the last element of the timestamp list. -/
def seg_final (ts : List ℚ) (st : SegState) : List Segment :=
  match st.current with
  | some lbl =>
    if 5 < st.seg_poses.length then
      st.segments ++
        [{ exercise := lbl,
           start_time := ts.getD st.seg_start 0,
           end_time := ts.getD (ts.length - 1) 0,
           duration := ts.getD (ts.length - 1) 0 - ts.getD st.seg_start 0,
           poses := st.seg_poses,
           frame_count := st.seg_poses.length }]
    else st.segments
  | none => st.segments

/-- segment_workout_into_exercises (src/batch_analyzer.py lines 232-272). -/
def segment_workout_into_exercises (poses : List (Option Landmarks))
    (ts : List ℚ) : List Segment :=
  seg_final ts ((List.enumFrom 0 poses).foldl (seg_step ts) ⟨[], none, 0, []⟩)

/-- Loop invariant of the segment builder after processing i frames:
the accumulator spans the indices from seg_start to i; the accumulator is
empty only in the initial state, where no segment exists yet; every built
segment has more than 5 frames, a well-ordered time interval, and ends
strictly before the timestamp at seg_start; and the built segments are
chained in strict time order. -/
def SegInv (ts : List ℚ) (i : ℕ) (st : SegState) : Prop :=
  st.seg_poses.length + st.seg_start = i ∧
  (st.seg_poses = [] → st.segments = []) ∧
  (∀ s ∈ st.segments,
    5 < s.frame_count ∧ s.start_time ≤ s.end_time ∧
      s.end_time < ts.getD st.seg_start 0) ∧
  st.segments.Pairwise fun a b => a.end_time < b.start_time

theorem seg_bound_lift (ts : List ℚ)
    (hmono : ∀ k, k < ts.length → ∀ j, j < k → ts.getD j 0 < ts.getD k 0)
    (i : ℕ) (hi : i < ts.length) (st : SegState)
    (hA : st.seg_poses.length + st.seg_start = i)
    (hH : st.seg_poses = [] → st.segments = [])
    (hF : ∀ s ∈ st.segments,
      5 < s.frame_count ∧ s.start_time ≤ s.end_time ∧
        s.end_time < ts.getD st.seg_start 0) :
    ∀ s ∈ st.segments, s.end_time < ts.getD i 0 := by
  intro s hs
  have hne : st.seg_poses ≠ [] := by
    intro hempty
    rw [hH hempty] at hs
    exact absurd hs (List.not_mem_nil s)
  have hlen : 0 < st.seg_poses.length := List.length_pos.2 hne
  have hstart : st.seg_start < i := by omega
  exact lt_trans (hF s hs).2.2 (hmono i hi st.seg_start hstart)

theorem seg_close_props (ts : List ℚ)
    (hmono : ∀ k, k < ts.length → ∀ j, j < k → ts.getD j 0 < ts.getD k 0)
    (i : ℕ) (hi : i < ts.length) (st : SegState)
    (hA : st.seg_poses.length + st.seg_start = i)
    (hH : st.seg_poses = [] → st.segments = [])
    (hF : ∀ s ∈ st.segments,
      5 < s.frame_count ∧ s.start_time ≤ s.end_time ∧
        s.end_time < ts.getD st.seg_start 0)
    (hP : st.segments.Pairwise fun a b => a.end_time < b.start_time) :
    (∀ s ∈ seg_close ts st i,
      5 < s.frame_count ∧ s.start_time ≤ s.end_time ∧
        s.end_time < ts.getD i 0) ∧
    (seg_close ts st i).Pairwise fun a b => a.end_time < b.start_time := by
  have hold := seg_bound_lift ts hmono i hi st hA hH hF
  rcases hcur : st.current with _ | lbl
  · simp only [seg_close, hcur]
    exact ⟨fun s hs => ⟨(hF s hs).1, (hF s hs).2.1, hold s hs⟩, hP⟩
  · simp only [seg_close, hcur]
    split_ifs with hlen5 hpos
    · have hstart_le : st.seg_start ≤ i - 1 := by omega
      have him1 : i - 1 < ts.length := by omega
      have hsle : ts.getD st.seg_start 0 ≤ ts.getD (i - 1) 0 := by
        rcases lt_or_eq_of_le hstart_le with hlt | heq
        · exact le_of_lt (hmono (i - 1) him1 st.seg_start hlt)
        · rw [heq]
      have hend_lt : ts.getD (i - 1) 0 < ts.getD i 0 :=
        hmono i hi (i - 1) (by omega)
      constructor
      · intro s hs
        rcases List.mem_append.1 hs with hs | hs
        · exact ⟨(hF s hs).1, (hF s hs).2.1, hold s hs⟩
        · rcases List.mem_singleton.1 hs with rfl
          exact ⟨hlen5, hsle, hend_lt⟩
      · refine List.pairwise_append.2 ⟨hP, by simp, ?_⟩
        intro a ha b hb
        rcases List.mem_singleton.1 hb with rfl
        exact (hF a ha).2.2
    · exact absurd hlen5 (by omega)
    · exact ⟨fun s hs => ⟨(hF s hs).1, (hF s hs).2.1, hold s hs⟩, hP⟩

theorem seg_step_inv (ts : List ℚ)
    (hmono : ∀ k, k < ts.length → ∀ j, j < k → ts.getD j 0 < ts.getD k 0)
    (i : ℕ) (hi : i < ts.length) (st : SegState) (hinv : SegInv ts i st)
    (p : Option Landmarks) :
    SegInv ts (i + 1) (seg_step ts st (i, p)) := by
  obtain ⟨hA, hH, hF, hP⟩ := hinv
  have hclose := seg_close_props ts hmono i hi st hA hH hF hP
  simp only [seg_step]
  split_ifs with hne
  · refine ⟨?_, by simp, fun s hs => hclose.1 s hs, hclose.2⟩
    simp only [List.length_singleton]
    omega
  · refine ⟨?_, ?_, hF, hP⟩
    · simp only [List.length_append, List.length_singleton]
      omega
    · intro hempty
      exact absurd hempty (by simp)

theorem seg_foldl_inv (ts : List ℚ)
    (hmono : ∀ k, k < ts.length → ∀ j, j < k → ts.getD j 0 < ts.getD k 0)
    (rest : List (Option Landmarks)) :
    ∀ (i : ℕ) (st : SegState), i + rest.length ≤ ts.length →
      SegInv ts i st →
      SegInv ts (i + rest.length)
        ((List.enumFrom i rest).foldl (seg_step ts) st) := by
  induction rest with
  | nil =>
    intro i st _ hinv
    simpa using hinv
  | cons p rest ih =>
    intro i st hle hinv
    simp only [List.length_cons] at hle
    have hi : i < ts.length := by omega
    have hstep := seg_step_inv ts hmono i hi st hinv p
    have hnext := ih (i + 1) (seg_step ts st (i, p)) (by omega) hstep
    have harith : i + (p :: rest).length = i + 1 + rest.length := by
      simp only [List.length_cons]
      omega
    rw [harith,
      show List.enumFrom i (p :: rest) =
        (i, p) :: List.enumFrom (i + 1) rest from rfl,
      List.foldl_cons]
    exact hnext

/-- Claim C2 (amended): under strictly increasing timestamps covering the
pose sequence, every segment returned by the segment builder spans more
than 5 frames and a well-ordered time interval, and the returned segments
are in strict time order (pairwise, each ends before the next starts), so
they are non-overlapping and ordered by start time.  The original claim
additionally asserted that no returned segment is labeled unknown, which
the code does not guarantee. -/
theorem segment_builder_segments_sound (poses : List (Option Landmarks))
    (ts : List ℚ) (hlen : ts.length = poses.length)
    (hmono : ∀ k, k < ts.length → ∀ j, j < k → ts.getD j 0 < ts.getD k 0) :
    (∀ s ∈ segment_workout_into_exercises poses ts,
      5 < s.frame_count ∧ s.start_time ≤ s.end_time) ∧
    (segment_workout_into_exercises poses ts).Pairwise
      fun a b => a.end_time < b.start_time := by
  have hinit : SegInv ts 0 ⟨[], none, 0, []⟩ :=
    ⟨rfl, fun _ => rfl, by simp, List.Pairwise.nil⟩
  have hfold := seg_foldl_inv ts hmono poses 0 ⟨[], none, 0, []⟩
    (by omega) hinit
  rw [Nat.zero_add] at hfold
  set st := (List.enumFrom 0 poses).foldl (seg_step ts) ⟨[], none, 0, []⟩
    with hst
  obtain ⟨hA, hH, hF, hP⟩ := hfold
  show (∀ s ∈ seg_final ts st, 5 < s.frame_count ∧
      s.start_time ≤ s.end_time) ∧
      (seg_final ts st).Pairwise fun a b => a.end_time < b.start_time
  rcases hcur : st.current with _ | lbl
  · simp only [seg_final, hcur]
    exact ⟨fun s hs => ⟨(hF s hs).1, (hF s hs).2.1⟩, hP⟩
  · simp only [seg_final, hcur]
    split_ifs with hlen5
    · have hstart_lt : st.seg_start < poses.length := by omega
      have hts_pos : 0 < ts.length := by omega
      have hstart_le : st.seg_start ≤ ts.length - 1 := by omega
      have hsle : ts.getD st.seg_start 0 ≤ ts.getD (ts.length - 1) 0 := by
        rcases lt_or_eq_of_le hstart_le with hlt | heq
        · exact le_of_lt (hmono (ts.length - 1) (by omega) st.seg_start hlt)
        · rw [heq]
      constructor
      · intro s hs
        rcases List.mem_append.1 hs with hs | hs
        · exact ⟨(hF s hs).1, (hF s hs).2.1⟩
        · rcases List.mem_singleton.1 hs with rfl
          exact ⟨hlen5, hsle⟩
      · refine List.pairwise_append.2 ⟨hP, by simp, ?_⟩
        intro a ha b hb
        rcases List.mem_singleton.1 hb with rfl
        exact lt_of_lt_of_le (hF a ha).2.2 (le_refl _)
    · exact ⟨fun s hs => ⟨(hF s hs).1, (hF s hs).2.1⟩, hP⟩

/-- Seven consecutive frames with no detected pose. -/
def c2_poses : List (Option Landmarks) :=
  List.replicate 7 none

/-- Strictly increasing timestamps for the seven frames. -/
def c2_ts : List ℚ := [0, 1, 2, 3, 4, 5, 6]

/-- Counterexample to claim C2 as stated: a run of seven no-observation
frames is classified unknown throughout, yet the builder does materialize
it, returning one segment labeled unknown. -/
theorem segment_builder_materializes_unknown_ce :
    (segment_workout_into_exercises c2_poses c2_ts).map Segment.exercise =
      [Label.unknown] := by
  rfl

/-- Witness for claim C2 at the concrete seven-frame input. -/
theorem segment_builder_segments_sound_witness :
    (∀ s ∈ segment_workout_into_exercises c2_poses c2_ts,
      5 < s.frame_count ∧ s.start_time ≤ s.end_time) ∧
    (segment_workout_into_exercises c2_poses c2_ts).Pairwise
      (fun a b => a.end_time < b.start_time) :=
  segment_builder_segments_sound c2_poses c2_ts (by decide) (by decide)

/-- Non-monotonic timestamps: a later frame (index 6) carries an earlier
time than the first frame. -/
def c5_ts : List ℚ := [10, 2, 3, 4, 5, 6, 1]

/-- Counterexample to claim C5: on non-monotonic timestamps the segment
builder does not raise anything; it returns an ordinary segment list
(here one unknown-labeled segment).  Neither this function nor any other
part of the code defines or raises an InvalidSequenceError. -/
theorem nonmonotonic_no_error_ce :
    (segment_workout_into_exercises c2_poses c5_ts).map Segment.exercise =
      [Label.unknown] := by
  rfl

/-- Claim C5 (amended): the pipeline performs no timestamp validation; on
a non-monotonic timestamp sequence the segment builder silently produces a
segment list, and the produced segment can even carry a negative duration
(end time before start time), rather than failing fast. -/
theorem nonmonotonic_negative_duration :
    (segment_workout_into_exercises c2_poses c5_ts).map Segment.duration =
      [-9] := by
  simp [segment_workout_into_exercises, seg_step, seg_final, seg_close,
    classify_exercise_from_pose, c2_poses, c5_ts, List.enumFrom,
    List.replicate]
  norm_num

/-- The per-segment entry of the detailed analysis list built by
analyze_workout_session (src/batch_analyzer.py lines 315-323). -/
structure SegmentAnalysis where
  exercise : Label
  duration : ℚ
  start_time : ℚ
  end_time : ℚ
  reps_counted : ℤ
  fatigue_analysis : FatigueResult
  frame_count : ℕ
deriving DecidableEq, Repr

/-- The session_summary block of the report (lines 337-344). -/
structure SessionSummary where
  total_duration : ℚ
  total_exercise_time : ℚ
  rest_time : ℚ
  total_reps : ℤ
  exercises_performed : List Label
  exercise_breakdown : List (Label × ℤ)
deriving DecidableEq, Repr

/-- The video_stats block of the report (lines 346-350). -/
structure VideoStats where
  total_frames : ℕ
  analyzed_frames : ℕ
  pose_detection_rate : ℚ
deriving DecidableEq, Repr

/-- The full report returned by analyze_workout_session on success. -/
structure SessionReport where
  session_summary : SessionSummary
  detailed_analysis : List SegmentAnalysis
  video_stats : VideoStats
deriving DecidableEq, Repr

/-- One update of the exercise_counts dictionary (line 333):
counts.get(ex, 0) + reps, with Python dict insertion-order semantics
modelled by an association list. -/
def bump_count (counts : List (Label × ℤ)) (ex : Label) (reps : ℤ) :
    List (Label × ℤ) :=
  if counts.any fun pr => pr.1 = ex then
    counts.map fun pr => if pr.1 = ex then (pr.1, pr.2 + reps) else pr
  else counts ++ [(ex, reps)]

/-- The analysis part of analyze_workout_session (src/batch_analyzer.py
lines 294-351), beginning after pose detection: it receives the detected
pose sequence with its timestamps, the video duration in seconds, and the
raw frame count of the video.  The Except models the two possible
dictionary shapes: the error dictionary of line 298 and the full report.
The earlier frame-extraction and pose-detection steps (video input and the
external pose model) are outside the embedding. -/
def analyze_workout_session_core (sq : ℚ → ℚ)
    (poses : List (Option Landmarks)) (timestamps : List ℚ)
    (total_duration : ℚ) (total_frames : ℕ) :
    Except String SessionReport :=
  let valid_poses := poses.filter fun p => p.isSome
  if valid_poses.length < 10 then
    .error "Insufficient pose data for analysis"
  else
    let segments := segment_workout_into_exercises poses timestamps
    let segment_analysis := segments.filterMap fun seg =>
      if seg.exercise = .unknown then none
      else some
        { exercise := seg.exercise,
          duration := seg.duration,
          start_time := seg.start_time,
          end_time := seg.end_time,
          reps_counted := count_reps_in_sequence seg.poses seg.exercise,
          fatigue_analysis := detect_fatigue_indicators sq seg.poses seg.exercise,
          frame_count := seg.frame_count }
    let total_reps := (segment_analysis.map fun a => a.reps_counted).sum
    let exercise_counts := segment_analysis.foldl
      (fun acc a => bump_count acc a.exercise a.reps_counted) []
    let total_exercise_time := (segment_analysis.map fun a => a.duration).sum
    .ok
      { session_summary :=
          { total_duration := total_duration,
            total_exercise_time := total_exercise_time,
            rest_time := total_duration - total_exercise_time,
            total_reps := total_reps,
            exercises_performed := exercise_counts.map fun pr => pr.1,
            exercise_breakdown := exercise_counts },
        detailed_analysis := segment_analysis,
        video_stats :=
          { total_frames := total_frames,
            analyzed_frames := poses.length,
            pose_detection_rate :=
              if poses ≠ [] then
                (valid_poses.length : ℚ) / (poses.length : ℚ)
              else 0 } }

/-- Twelve consecutive frames with no detected pose, and their
timestamps. -/
def c4_poses : List (Option Landmarks) :=
  List.replicate 12 none

/-- Timestamps for the twelve all-missing frames. -/
def c4_ts : List ℚ := [0, 1, 2, 3, 4, 5, 6, 7, 8, 9, 10, 11]

/-- Counterexample to claim C4 as stated: on a sequence in which every
frame is the no-observation marker, the pipeline does not produce a
zero-total report; it returns the error value of line 298. -/
theorem all_missing_session_error_ce :
    analyze_workout_session_core (fun q => q) c4_poses c4_ts 11 360 =
      Except.error "Insufficient pose data for analysis" := by
  rfl

/-- Claim C4 (amended): on any pose sequence in which every frame is the
no-observation marker, the pipeline stops at the insufficient-data guard
and returns the error value, never a report. -/
theorem all_missing_session_errors (sq : ℚ → ℚ)
    (poses : List (Option Landmarks)) (timestamps : List ℚ)
    (total_duration : ℚ) (total_frames : ℕ)
    (h : ∀ p ∈ poses, p = (none : Option Landmarks)) :
    analyze_workout_session_core sq poses timestamps total_duration
      total_frames = Except.error "Insufficient pose data for analysis" := by
  have hfilter : (poses.filter fun p => p.isSome) = [] := by
    rw [List.filter_eq_nil_iff]
    intro a ha
    rw [h a ha]
    simp
  simp only [analyze_workout_session_core, hfilter, List.length_nil]
  rfl

/-- Witness for claim C4 at a concrete three-frame all-missing input. -/
theorem all_missing_session_errors_witness :
    analyze_workout_session_core (fun q => q) [none, none, none] [0, 1, 2]
      2 90 = Except.error "Insufficient pose data for analysis" :=
  all_missing_session_errors (fun q => q) [none, none, none] [0, 1, 2] 2 90
    (by decide)

end BatchAnalyzer
